import Mathlib

/-!
Verification of the body-capture and truncation helpers of the
echo-zap-middleware repository (helpers.go), as a shallow embedding.

Go strings and byte slices are modelled as `List Nat` (each element a byte
value); Go `int` is modelled as `Int`; a Go slice-bounds panic is modelled by
an `Option` result being `none`.
-/

namespace EchoZap

/-- A Go string / byte slice: a list of byte values. -/
abbrev Bytes := List Nat

/-- The scalar configuration fields of `ZapConfig` (middleware.go).  The
function-valued fields (`Skipper`, `BodySkipper`) are modelled by passing
their per-request results as explicit arguments where they are used. -/
structure ZapConfig where
  AreHeadersDump : Bool := false
  IsBodyDump : Bool := false
  LimitHTTPBody : Bool := false
  LimitSize : Int := 0
deriving DecidableEq, Repr

/-- Is `b` a UTF-8 continuation byte (0x80–0xBF)? -/
def contB (b : Nat) : Bool := 0x80 ≤ b && b ≤ 0xBF

/-- `unicode/utf8.Valid` from the Go standard library: the byte list is a
concatenation of well-formed UTF-8 encodings (surrogates, overlong forms and
code points above U+10FFFF are rejected, per Go's accept-range table). -/
def utf8Valid : List Nat → Bool
  | [] => true
  | b0 :: tail =>
    if b0 ≤ 0x7F then utf8Valid tail
    else
      match tail with
      | [] => false
      | b1 :: tail1 =>
        if 0xC2 ≤ b0 && b0 ≤ 0xDF then contB b1 && utf8Valid tail1
        else
          match tail1 with
          | [] => false
          | b2 :: tail2 =>
            if b0 = 0xE0 then (0xA0 ≤ b1 && b1 ≤ 0xBF) && contB b2 && utf8Valid tail2
            else if 0xE1 ≤ b0 && b0 ≤ 0xEC then contB b1 && contB b2 && utf8Valid tail2
            else if b0 = 0xED then (0x80 ≤ b1 && b1 ≤ 0x9F) && contB b2 && utf8Valid tail2
            else if 0xEE ≤ b0 && b0 ≤ 0xEF then contB b1 && contB b2 && utf8Valid tail2
            else
              match tail2 with
              | [] => false
              | b3 :: tail3 =>
                if b0 = 0xF0 then
                  (0x90 ≤ b1 && b1 ≤ 0xBF) && contB b2 && contB b3 && utf8Valid tail3
                else if 0xF1 ≤ b0 && b0 ≤ 0xF3 then
                  contB b1 && contB b2 && contB b3 && utf8Valid tail3
                else if b0 = 0xF4 then
                  (0x80 ≤ b1 && b1 ≤ 0x8F) && contB b2 && contB b3 && utf8Valid tail3
                else false

/-- The byte-dropping loop of `limitString` (helpers.go lines 61–63):
`for !utf8.Valid(validBytes) && len(validBytes) > 0 { validBytes =
validBytes[:len(validBytes)-1] }`, written with an explicit fuel counter
(the loop drops one byte per iteration, so `bs.length` steps suffice; once
the list is empty `utf8Valid` holds and the loop is over). -/
def dropToValidGo : Nat → Bytes → Bytes
  | 0, bs => bs
  | fuel + 1, bs => if utf8Valid bs then bs else dropToValidGo fuel bs.dropLast

/-- The byte-dropping loop started with enough fuel to run to completion. -/
def dropToValid (bs : Bytes) : Bytes := dropToValidGo bs.length bs

/-- `limitString` (helpers.go lines 47–66).  Go's `strBytes[:size]` panics
when `size` is negative (modelled as `none`); `len(str)` and
`len(strBytes)` coincide, so the two early returns collapse into one. -/
def limitString (str : Bytes) (size : Int) : Option Bytes :=
  if (str.length : Int) ≤ size then some str
  else if size < 0 then none
  else some (dropToValid (str.take size.toNat))

/-- The three ASCII dots `"..."` appended by `limitStringWithDots`. -/
def dots : Bytes := [46, 46, 46]

/-- `limitStringWithDots` (helpers.go lines 69–84). -/
def limitStringWithDots (str : Bytes) (size : Int) : Option Bytes :=
  if size ≤ 10 then limitString str size
  else
    match limitString str (size - 3) with
    | none => none
    | some result => if result = str then some str else some (result ++ dots)

/-- `limitBody` (helpers.go lines 87–93). -/
def limitBody (config : ZapConfig) (str : Bytes) : Option Bytes :=
  if !config.LimitHTTPBody then some str
  else limitStringWithDots str config.LimitSize

/-- The log levels used by `logit`. -/
inductive LogLevel where
  | error
  | warn
  | info
deriving DecidableEq, Repr

/-- `logit` (helpers.go lines 108–119): level and message as a pure function
of the status code; emitting through the zap logger is modelled by returning
the chosen pair. -/
def logit (status : Int) : LogLevel × String :=
  if 500 ≤ status then (LogLevel.error, "Server error")
  else if 400 ≤ status then (LogLevel.warn, "Client error")
  else if 300 ≤ status then (LogLevel.info, "Redirection")
  else (LogLevel.info, "Success")

/-- A request body stream (`req.Body`): either the original `ReadCloser`
— reading it yields `dataRead` plus, when `readErr` is set, an error
(`io.ReadAll` returns the bytes accumulated before the failure together with
the error) — or the in-memory replacement
`io.NopCloser(bytes.NewBuffer(b))`, which reads fully without error. -/
inductive BodyStream where
  | orig (dataRead : Bytes) (readErr : Bool)
  | buffered (buf : Bytes)
deriving DecidableEq, Repr

/-- What `io.ReadAll` returns on a stream: the bytes and whether an error
accompanied them. -/
def readStream : BodyStream → Bytes × Bool
  | BodyStream.orig d e => (d, e)
  | BodyStream.buffered b => (b, false)

/-- The request state relevant to `prepareReqAndResp`: its body slot
(`nil` body modelled as `none`). -/
structure GoRequest where
  body : Option BodyStream
deriving DecidableEq, Repr

/-- The response writer: the underlying destination, or a
`response.Dumper` wrapping another writer with an accumulation buffer. -/
inductive RespWriter where
  | base
  | dumper (inner : RespWriter) (buf : Bytes)
deriving DecidableEq, Repr

/-- The outcome of `prepareReqAndResp`: the two returned values, the request
and writer state after the call, and whether `Close` was invoked on the
original body stream.  A `nil` byte slice is `none`. -/
structure PrepResult where
  respDumper : Option RespWriter
  reqBody : Option Bytes
  req : GoRequest
  writer : RespWriter
  origClosed : Bool
deriving DecidableEq, Repr

/-- `prepareReqAndResp` (helpers.go lines 17–44).  On a successful read the
original stream is closed and replaced by a buffered copy; on a read error
the body slot is left exactly as it was and `reqBody` holds whatever
`io.ReadAll` returned alongside the error.  The dumper returned is the very
writer installed. -/
def prepareReqAndResp (config : ZapConfig) (req : GoRequest) (w : RespWriter) :
    PrepResult :=
  if !config.IsBodyDump then ⟨none, none, req, w, false⟩
  else
    match req.body with
    | none =>
      let dump := RespWriter.dumper w []
      ⟨some dump, none, req, dump, false⟩
    | some s =>
      let r := readStream s
      let dump := RespWriter.dumper w []
      if r.2 then ⟨some dump, some r.1, req, dump, false⟩
      else ⟨some dump, some r.1, ⟨some (BodyStream.buffered r.1)⟩, dump, true⟩

/-- A structured log field carrying a string value (`zap.String`). -/
structure LogField where
  key : String
  content : Bytes
deriving DecidableEq, Repr

/-- The bytes of the redaction marker `"[excluded]"`. -/
def excludedMarker : Bytes := [91, 101, 120, 99, 108, 117, 100, 101, 100, 93]

/-- `addBody` (helpers.go lines 135–160).  The per-request outputs of
`config.BodySkipper(c)` are passed as `skipReq`/`skipResp`; the response
dumper's accumulated `GetResponse()` is passed as `respBody`. -/
def addBody (config : ZapConfig) (skipReq skipResp : Bool)
    (reqBody respBody : Bytes) : Option (List LogField) :=
  if !config.IsBodyDump then some []
  else
    match limitBody config reqBody with
    | none => none
    | some rc0 =>
      let rc := if 0 < rc0.length ∧ skipReq = true then excludedMarker else rc0
      match limitBody config respBody with
      | none => none
      | some sc0 =>
        let sc := if 0 < sc0.length ∧ skipResp = true then excludedMarker else sc0
        some [⟨"req.body", rc⟩, ⟨"resp.body", sc⟩]

/-- Sample ASCII text `"0123456789ABCDEF"` used by the repository's own
`TestLimitBody`. -/
def sample16 : Bytes := [48, 49, 50, 51, 52, 53, 54, 55, 56, 57, 65, 66, 67, 68, 69, 70]

/-- Sample ASCII text `"hello"`. -/
def hello : Bytes := [104, 101, 108, 108, 111]

/- Helper lemmas about the byte-dropping loop. -/

/-- With enough fuel, the dropping loop always ends on a valid byte list
(when the fuel runs out the list has become empty, which is valid). -/
theorem dropToValidGo_valid (fuel : Nat) :
    ∀ bs : Bytes, bs.length ≤ fuel → utf8Valid (dropToValidGo fuel bs) = true := by
  induction fuel with
  | zero =>
    intro bs h
    have hnil : bs = [] := List.eq_nil_of_length_eq_zero (Nat.le_zero.mp h)
    subst hnil
    rfl
  | succ n ih =>
    intro bs h
    rw [dropToValidGo]
    by_cases hv : utf8Valid bs = true
    · simp [hv]
    · have hb : (utf8Valid bs) = false := by
        cases hval : utf8Valid bs
        · rfl
        · exact absurd hval hv
      rw [hb]
      simp only [Bool.false_eq_true, if_false]
      apply ih
      have := List.length_dropLast bs
      omega

/-- The dropping loop returns a prefix of its input. -/
theorem dropToValidGo_isPre (fuel : Nat) :
    ∀ bs : Bytes, dropToValidGo fuel bs <+: bs := by
  induction fuel with
  | zero => intro bs; exact List.prefix_refl bs
  | succ n ih =>
    intro bs
    rw [dropToValidGo]
    by_cases hv : utf8Valid bs = true
    · simp [hv]
    · have hb : (utf8Valid bs) = false := by
        cases hval : utf8Valid bs
        · rfl
        · exact absurd hval hv
      rw [hb]
      simp only [Bool.false_eq_true, if_false]
      exact (ih bs.dropLast).trans ( List.dropLast_prefix bs)

/-- `dropToValid` always returns a valid prefix of its input. -/
theorem dropToValid_valid (bs : Bytes) : utf8Valid (dropToValid bs) = true :=
  dropToValidGo_valid bs.length bs (Nat.le_refl _)

/-- `dropToValid` returns a prefix of its input. -/
theorem dropToValid_isPre (bs : Bytes) : dropToValid bs <+: bs :=
  dropToValidGo_isPre bs.length bs

/-- Claim C1: `limitBody` with the limit disabled returns the input
unchanged, but with the limit enabled and `LimitSize = 0` it returns the
empty string instead of the input, and with a negative `LimitSize` it
panics (slice bound out of range) — evaluating the code at the failing
input of the repository's own `TestLimitBody`. -/
theorem c1_limitBody_budget_not_respected :
    limitBody ⟨false, false, false, 0⟩ sample16 = some sample16 ∧
    limitBody ⟨false, false, true, 0⟩ sample16 = some [] ∧
    limitBody ⟨false, false, true, -1⟩ sample16 = none ∧
    sample16 ≠ [] := by decide

/-- Claim C2 (counterexample): an input that is not valid UTF-8 but already
fits the byte budget is returned unchanged, so the result of `limitString`
is not always structurally valid. -/
theorem c2_invalid_input_kept :
    limitString [255] 1 = some [255] ∧ utf8Valid [255] = false := by decide

/-- Claim C2 (amended): for every byte budget N ≥ 0, `limitString` returns a
prefix of the input of byte length at most N; the result is structurally
valid UTF-8 whenever truncation actually occurs (input longer than N) or the
input itself was valid. -/
theorem c2_limitString_prefix_bound_valid (T : Bytes) (N : Int) (hN : 0 ≤ N) :
    ∃ r, limitString T N = some r ∧ r <+: T ∧ (r.length : Int) ≤ N ∧
      (N < (T.length : Int) → utf8Valid r = true) ∧
      (utf8Valid T = true → utf8Valid r = true) := by
  unfold limitString
  by_cases h1 : (T.length : Int) ≤ N
  · refine ⟨T, by rw [if_pos h1], List.prefix_refl T, h1, ?_, fun h => h⟩
    intro hlt
    exact absurd hlt (not_lt.mpr h1)
  · have hneg : ¬ N < 0 := by omega
    refine ⟨dropToValid (T.take N.toNat), by rw [if_neg h1, if_neg hneg], ?_, ?_,
      fun _ => dropToValid_valid _, fun _ => dropToValid_valid _⟩
    · exact (dropToValid_isPre _).trans ( List.take_prefix _ _)
    · have hp := (dropToValid_isPre (T.take N.toNat)).length_le
      have ht : (T.take N.toNat).length ≤ N.toNat := by simp
      omega

/-- Claim C2 (witness): the amended statement at `T = "hello"`, `N = 3`. -/
theorem c2_witness :
    ∃ r, limitString hello 3 = some r ∧ r <+: hello ∧ (r.length : Int) ≤ 3 ∧
      utf8Valid r = true := by
  obtain ⟨r, h1, h2, h3, h4, _⟩ := c2_limitString_prefix_bound_valid hello 3 (by decide)
  exact ⟨r, h1, h2, h3, h4 (by decide)⟩

/-- Claim C3 (counterexample): `io.ReadAll` hands back the bytes it
accumulated before the failure, and `prepareReqAndResp` returns them: a
stream that yields `"pa"` and then errors produces captured bytes `"pa"`,
not the empty sequence. -/
theorem c3_partial_bytes_surfaced :
    (prepareReqAndResp ⟨false, true, false, 0⟩
        ⟨some (BodyStream.orig [112, 97] true)⟩ RespWriter.base).reqBody =
      some [112, 97] ∧
    ([112, 97] : Bytes) ≠ [] := by decide

/-- Claim C3 (amended): on a read failure `prepareReqAndResp` returns
exactly the bytes `io.ReadAll` read before the error (empty only when the
stream fails before yielding any data) and leaves the original stream
installed, unclosed and unmodified. -/
theorem c3_read_error_keeps_stream (config : ZapConfig) (d : Bytes)
    (w : RespWriter) (h : config.IsBodyDump = true) :
    (prepareReqAndResp config ⟨some (BodyStream.orig d true)⟩ w).reqBody = some d ∧
    (prepareReqAndResp config ⟨some (BodyStream.orig d true)⟩ w).req =
      ⟨some (BodyStream.orig d true)⟩ ∧
    (prepareReqAndResp config ⟨some (BodyStream.orig d true)⟩ w).origClosed = false := by
  simp [prepareReqAndResp, h, readStream]

/-- Claim C3 (witness): the amended statement at a concrete erroring
stream. -/
theorem c3_witness :
    (prepareReqAndResp ⟨false, true, false, 0⟩
        ⟨some (BodyStream.orig [112, 97] true)⟩ RespWriter.base).reqBody =
      some [112, 97] ∧
    (prepareReqAndResp ⟨false, true, false, 0⟩
        ⟨some (BodyStream.orig [112, 97] true)⟩ RespWriter.base).req =
      ⟨some (BodyStream.orig [112, 97] true)⟩ ∧
    (prepareReqAndResp ⟨false, true, false, 0⟩
        ⟨some (BodyStream.orig [112, 97] true)⟩ RespWriter.base).origClosed = false :=
  c3_read_error_keeps_stream ⟨false, true, false, 0⟩ [112, 97] RespWriter.base rfl

/-- Claim C4: with body dump enabled and a body stream that reads fully
without error, `prepareReqAndResp` returns exactly the original bytes,
closes the original stream, installs a fresh in-memory replacement over
those bytes, and a downstream read of that replacement yields the same
bytes with no error. -/
theorem c4_success_roundtrip (config : ZapConfig) (d : Bytes) (w : RespWriter)
    (h : config.IsBodyDump = true) :
    (prepareReqAndResp config ⟨some (BodyStream.orig d false)⟩ w).reqBody = some d ∧
    (prepareReqAndResp config ⟨some (BodyStream.orig d false)⟩ w).origClosed = true ∧
    (prepareReqAndResp config ⟨some (BodyStream.orig d false)⟩ w).req.body =
      some (BodyStream.buffered d) ∧
    readStream (BodyStream.buffered d) = (d, false) := by
  simp [prepareReqAndResp, h, readStream]

/-- Claim C4 (witness): the round trip at body content `"hello"`. -/
theorem c4_witness :
    (prepareReqAndResp ⟨false, true, false, 0⟩
        ⟨some (BodyStream.orig hello false)⟩ RespWriter.base).reqBody = some hello ∧
    (prepareReqAndResp ⟨false, true, false, 0⟩
        ⟨some (BodyStream.orig hello false)⟩ RespWriter.base).origClosed = true ∧
    (prepareReqAndResp ⟨false, true, false, 0⟩
        ⟨some (BodyStream.orig hello false)⟩ RespWriter.base).req.body =
      some (BodyStream.buffered hello) ∧
    readStream (BodyStream.buffered hello) = (hello, false) :=
  c4_success_roundtrip ⟨false, true, false, 0⟩ hello RespWriter.base rfl

/-- Claim C5: the `logit` in helpers.go derives its message from the status
alone; for an uncommitted response (echo leaves `res.Status = 200`) it logs
`"Success"` at informational level, never `"Response not committed"` at
warning level as the spec and the repository's own tests require. -/
theorem c5_logit_has_no_uncommitted_branch :
    logit 200 = (LogLevel.info, "Success") ∧
    "Success" ≠ "Response not committed" := by decide

/-- Claim C6 (counterexample): with the limit enabled at one byte, a
non-empty captured body of one two-byte character truncates to the empty
string, so the exclusion marker is not applied even though the captured
content was non-empty and the skip flags are set. -/
theorem c6_truncated_to_empty_not_marked :
    addBody ⟨false, true, true, 1⟩ true true [195, 169] [] =
      some [⟨"req.body", []⟩, ⟨"resp.body", []⟩] ∧
    ([195, 169] : Bytes) ≠ [] ∧ ([] : Bytes) ≠ excludedMarker := by decide

/-- Claim C6 (amended): for each side independently, the logged field is the
marker `"[excluded]"` exactly when that side's exclusion flag is set and its
truncated (post-`limitBody`) content is non-empty; otherwise the field
carries the truncated content itself (in particular an empty truncated
content stays empty even when the flag is set). -/
theorem c6_marker_applied_to_truncated_content (config : ZapConfig)
    (skipReq skipResp : Bool) (reqBody respBody rc sc : Bytes)
    (hdump : config.IsBodyDump = true)
    (hr : limitBody config reqBody = some rc)
    (hs : limitBody config respBody = some sc) :
    addBody config skipReq skipResp reqBody respBody =
      some [⟨"req.body", if rc ≠ [] ∧ skipReq = true then excludedMarker else rc⟩,
            ⟨"resp.body", if sc ≠ [] ∧ skipResp = true then excludedMarker else sc⟩] := by
  rcases eq_or_ne rc [] with h1 | h1 <;> rcases eq_or_ne sc [] with h2 | h2 <;>
    cases skipReq <;> cases skipResp <;>
      simp [addBody, hdump, hr, hs, h1, h2, List.length_pos]

/-- Claim C6 (witness): mixed flags with no size limit — the request side
is skipped and its non-empty content is replaced by the marker, while the
response side is not skipped and its non-empty content is logged as is. -/
theorem c6_witness :
    addBody ⟨false, true, false, 0⟩ true false hello sample16 =
      some [⟨"req.body", excludedMarker⟩, ⟨"resp.body", sample16⟩] := by
  have h := c6_marker_applied_to_truncated_content ⟨false, true, false, 0⟩
    true false hello sample16 hello sample16 rfl (by decide) (by decide)
  simpa [hello, sample16] using h

/-- Claim C7: `logit` selects level and message as a pure function of the
status code: ≥ 500 error `"Server error"`; 400–499 warning
`"Client error"`; 300–399 informational `"Redirection"`; below 300
informational `"Success"`. -/
theorem c7_logit_status_mapping (s : Int) :
    (500 ≤ s → logit s = (LogLevel.error, "Server error")) ∧
    (400 ≤ s ∧ s ≤ 499 → logit s = (LogLevel.warn, "Client error")) ∧
    (300 ≤ s ∧ s ≤ 399 → logit s = (LogLevel.info, "Redirection")) ∧
    (s < 300 → logit s = (LogLevel.info, "Success")) := by
  unfold logit
  refine ⟨?_, ?_, ?_, ?_⟩ <;> intro h
  · rw [if_pos h]
  · rw [if_neg (by omega), if_pos h.1]
  · rw [if_neg (by omega), if_neg (by omega), if_pos h.1]
  · rw [if_neg (by omega), if_neg (by omega), if_neg (by omega)]

/-- Claim C7 (witness): the mapping at 500, 404, 302 and 200, the table of
the spec's seed test. -/
theorem c7_witness :
    logit 500 = (LogLevel.error, "Server error") ∧
    logit 404 = (LogLevel.warn, "Client error") ∧
    logit 302 = (LogLevel.info, "Redirection") ∧
    logit 200 = (LogLevel.info, "Success") :=
  ⟨(c7_logit_status_mapping 500).1 (by decide),
   (c7_logit_status_mapping 404).2.1 ⟨by decide, by decide⟩,
   (c7_logit_status_mapping 302).2.2.1 ⟨by decide, by decide⟩,
   (c7_logit_status_mapping 200).2.2.2 (by decide)⟩

/-- Claim C8: for budgets N > 10, when no truncation happens (the input
fits in N − 3 bytes) the input is returned unchanged, and when truncation
happens the result is `limitString(T, N − 3)` with the three-dot marker
appended. -/
theorem c8_dots_appended (T : Bytes) (N : Int) (hN : 10 < N) :
    ((T.length : Int) ≤ N - 3 → limitStringWithDots T N = some T) ∧
    (N - 3 < (T.length : Int) →
      ∃ L, limitString T (N - 3) = some L ∧
        limitStringWithDots T N = some (L ++ dots)) := by
  have hs : ¬ N ≤ 10 := by omega
  constructor
  · intro hle
    have hT : limitString T (N - 3) = some T := by
      unfold limitString; rw [if_pos hle]
    unfold limitStringWithDots
    rw [if_neg hs, hT]
    simp
  · intro hgt
    have h1 : ¬ (T.length : Int) ≤ N - 3 := by omega
    have h2 : ¬ (N - 3) < 0 := by omega
    have hL : limitString T (N - 3) =
        some (dropToValid (T.take (N - 3).toNat)) := by
      unfold limitString; rw [if_neg h1, if_neg h2]
    refine ⟨_, hL, ?_⟩
    have hlen : (dropToValid (T.take (N - 3).toNat)).length < T.length := by
      have hp := (dropToValid_isPre (T.take (N - 3).toNat)).length_le
      have ht : (T.take (N - 3).toNat).length ≤ (N - 3).toNat := by simp
      omega
    have hne : dropToValid (T.take (N - 3).toNat) ≠ T := by
      intro he; rw [he] at hlen; omega
    unfold limitStringWithDots
    rw [if_neg hs, hL]
    simp [hne]

/-- Claim C8 (witness): `"0123456789ABCDEF"` with budget 12 truncates to
`limitString` at 9 bytes plus the marker. -/
theorem c8_witness :
    ∃ L, limitString sample16 (12 - 3) = some L ∧
      limitStringWithDots sample16 12 = some (L ++ dots) :=
  (c8_dots_appended sample16 12 (by decide)).2 (by decide)

/-- Claim C9: for budgets N ≤ 10, `limitStringWithDots` coincides with
`limitString` and no marker is appended. -/
theorem c9_small_budget_no_dots (T : Bytes) (N : Int) (h : N ≤ 10) :
    limitStringWithDots T N = limitString T N := by
  unfold limitStringWithDots
  rw [if_pos h]

/-- Claim C9 (witness): at `T = "hello"`, `N = 2`. -/
theorem c9_witness : limitStringWithDots hello 2 = limitString hello 2 :=
  c9_small_budget_no_dots hello 2 (by decide)

/-- Claim C10: with `IsBodyDump` false, `prepareReqAndResp` returns nil for
both the dumper and the captured body and leaves the request and the
response writer exactly as they were. -/
theorem c10_disabled_noop (config : ZapConfig) (req : GoRequest)
    (w : RespWriter) (h : config.IsBodyDump = false) :
    prepareReqAndResp config req w = ⟨none, none, req, w, false⟩ := by
  simp [prepareReqAndResp, h]

/-- Claim C10 (witness): the no-op at a concrete request carrying a body
stream. -/
theorem c10_witness :
    prepareReqAndResp ⟨false, false, false, 0⟩
        ⟨some (BodyStream.orig hello false)⟩ RespWriter.base =
      ⟨none, none, ⟨some (BodyStream.orig hello false)⟩, RespWriter.base, false⟩ :=
  c10_disabled_noop ⟨false, false, false, 0⟩
    ⟨some (BodyStream.orig hello false)⟩ RespWriter.base rfl

end EchoZap
